import Mathlib

/-!
Shallow embedding of `src/datasets/trecdl.py` (class `TRECDLAdapter`).

The Python file defines `TRECDLAdapter` twice; the second definition shadows
the first, so the second class is the effective code and is the one embedded
here.  Registry records are modelled as structures whose optional attributes
(`text`, `relevance`) are `Option` fields — Python code accesses them through
`getattr(·, name, default)`.  The external `ir_datasets` dataset handle is a
`Dataset` value whose three iterators either yield a full list (registry
iteration order) or raise; Python exceptions are the `PyExc` type.
-/

set_option autoImplicit false

namespace TrecDL

/-- A document record from the registry: `doc_id` plus an optional `text`
attribute (`getattr(d, "text", "")` in the source). -/
structure Doc where
  doc_id : String
  text : Option String
deriving DecidableEq, Repr

/-- A query record from the registry. -/
structure Query where
  query_id : String
  text : Option String
deriving DecidableEq, Repr

/-- A judgment (qrel) record: foreign keys to a query and a document and an
optional integer `relevance` attribute (`getattr(r, "relevance", 0)`). -/
structure Qrel where
  query_id : String
  doc_id : String
  relevance : Option Int
deriving DecidableEq, Repr

/-- A Python exception value: the class together with its message.
`valueError` is what the adapter raises; `keyError` is the registry's raw
not-found signal; `runtimeError` stands for any other streaming failure. -/
inductive PyExc where
  | valueError (msg : String)
  | keyError (msg : String)
  | runtimeError (msg : String)
deriving DecidableEq, Repr

/-- The external dataset handle returned by `ir_datasets.load`: each iterator
either streams a full list in registry order or raises somewhere during
iteration (modelled as the whole stream failing, as the Python `list`/
comprehension consuming it would propagate the exception). -/
structure Dataset where
  docs_iter : Except PyExc (List Doc)
  queries_iter : Except PyExc (List Query)
  qrels_iter : Except PyExc (List Qrel)

/-- `YEARS = [2019, 2020, 2021]`. -/
def YEARS : List Int := [2019, 2020, 2021]

/-- `MODES = ["passage", "document"]`. -/
def MODES : List String := ["passage", "document"]

/-- The dataset-identifier computation from `__init__`:
years 2019/2020 use `msmarco-<mode>/trec-dl-<year>`, 2021 uses the
`-v2` scheme. -/
def dataset_id (year : Int) (mode : String) : String :=
  if year ∈ ([2019, 2020] : List Int) then
    "msmarco-" ++ mode ++ "/trec-dl-" ++ toString year
  else
    "msmarco-" ++ mode ++ "-v2/trec-dl-" ++ toString year

/-- Message of the invalid-year `ValueError` (`f"Supported years: {self.YEARS}"`,
with the Python list rendering). -/
def yearErrMsg : String := "Supported years: [2019, 2020, 2021]"

/-- Message of the invalid-mode `ValueError`
(`f"mode must be one of: {self.MODES}"`). -/
def modeErrMsg : String := "mode must be one of: ['passage', 'document']"

/-- The adapter after successful construction: the resolved dataset handle and
the read-only attributes `name`, `year`, `mode`. -/
structure TRECDLAdapter where
  dataset : Dataset
  name : String
  year : Int
  mode : String

/-- `TRECDLAdapter.__init__`: validate `year` and `mode`, resolve the dataset
identifier, look it up in the registry (`ir_datasets.load`); a raw `KeyError`
from the registry is caught and re-raised as a `ValueError` carrying the
attempted identifier, while any other registry exception propagates. -/
def initAdapter (registry : String → Except PyExc Dataset) (year : Int)
    (mode : String) : Except PyExc TRECDLAdapter :=
  if year ∉ YEARS then
    .error (.valueError yearErrMsg)
  else if mode ∉ MODES then
    .error (.valueError modeErrMsg)
  else
    let dsid := dataset_id year mode
    match registry dsid with
    | .ok ds => .ok ⟨ds, dsid, year, mode⟩
    | .error (.keyError _) =>
        .error (.valueError ("Dataset not found in ir_datasets: " ++ dsid))
    | .error e => .error e

/-- Python truthiness of the `Optional[int]` argument `limit`
(`if limit:` — `None` and `0` are falsy). -/
def truthy : Option Int → Bool
  | none => false
  | some n => n != 0

/-- Python slice `xs[:n]` for an `int` bound `n`: a nonnegative bound keeps
the first `n` elements, a negative bound drops the last `-n` elements. -/
def pySliceTo {α : Type} (xs : List α) (n : Int) : List α :=
  if 0 ≤ n then xs.take n.toNat else xs.take (xs.length - (-n).toNat)

/-- One step of building `qrel_map` (`qrel_map.setdefault(r.query_id, []).append(r)`):
append to the existing group if the key is present, otherwise add a new
key at the end. -/
def addQrel (m : List (String × List Qrel)) (r : Qrel) : List (String × List Qrel) :=
  match m with
  | [] => [(r.query_id, [r])]
  | (k, v) :: rest =>
      if k == r.query_id then (k, v ++ [r]) :: rest else (k, v) :: addQrel rest r

/-- Step 1 of `load`: group the qrel stream by `query_id`. -/
def qrelMap (qrels : List Qrel) : List (String × List Qrel) :=
  qrels.foldl addQrel []

/-- Key membership in the grouping (`q.query_id in qrel_map`). -/
def mapContainsKey (m : List (String × List Qrel)) (qid : String) : Bool :=
  m.any (fun p => p.1 == qid)

/-- The value returned by `load`: the dict
`{"docs": ..., "queries": ..., "qrels": ...}`. -/
structure LoadResult where
  docs : List Doc
  queries : List Query
  qrels : List Qrel
deriving DecidableEq, Repr

/-- The body of the `try:` block of `TRECDLAdapter.load`, step by step:
group qrels by query (step 1), keep queries with qrels and truncate when
`limit` is truthy (step 2), re-stream qrels keeping the retained query ids
(step 3), collect referenced doc ids and filter the document stream
(step 4).  Each stream access may raise, aborting the body there. -/
def loadBody (ds : Dataset) (limit : Option Int) : Except PyExc LoadResult :=
  match ds.qrels_iter with
  | .error e => .error e
  | .ok qrels0 =>
    let qm := qrelMap qrels0
    match ds.queries_iter with
    | .error e => .error e
    | .ok queriesAll =>
      let filtered := queriesAll.filter (fun q => mapContainsKey qm q.query_id)
      let all_queries := if truthy limit then pySliceTo filtered (limit.getD 0) else filtered
      let qids := all_queries.map (fun q => q.query_id)
      match ds.qrels_iter with
      | .error e => .error e
      | .ok qrels1 =>
        let qrels := qrels1.filter (fun r => qids.contains r.query_id)
        let docids := qrels.map (fun r => r.doc_id)
        match ds.docs_iter with
        | .error e => .error e
        | .ok docs0 =>
          let docs := docs0.filter (fun d => docids.contains d.doc_id)
          .ok ⟨docs, all_queries, qrels⟩

/-- `TRECDLAdapter.load`: the `try`/`except Exception` wrapper — any failure
in the body degrades to the empty result instead of raising. -/
def load (ds : Dataset) (limit : Option Int) : LoadResult :=
  match loadBody ds limit with
  | .ok r => r
  | .error _ => ⟨[], [], []⟩

/-- The shared loop of `iter_docs` / `iter_queries` / `iter_qrels`: yield the
item, increment `count`, and break when `limit` is truthy and
`count >= limit`. -/
def iterLoop {α : Type} (limit : Option Int) (count : Int) : List α → List α
  | [] => []
  | x :: xs =>
      x :: (if truthy limit && decide (limit.getD 0 ≤ count + 1) then []
            else iterLoop limit (count + 1) xs)

/-- `TRECDLAdapter.iter_docs`: a raw pass-through over the document stream
with only the count cap; registry failures propagate. -/
def iter_docs (ds : Dataset) (limit : Option Int) : Except PyExc (List Doc) :=
  ds.docs_iter.map (iterLoop limit 0)

/-- `TRECDLAdapter.iter_queries`. -/
def iter_queries (ds : Dataset) (limit : Option Int) : Except PyExc (List Query) :=
  ds.queries_iter.map (iterLoop limit 0)

/-- `TRECDLAdapter.iter_qrels`. -/
def iter_qrels (ds : Dataset) (limit : Option Int) : Except PyExc (List Qrel) :=
  ds.qrels_iter.map (iterLoop limit 0)

/-- The argument of `trec_df`: a dict that may or may not contain each of the
three required keys. -/
structure DataDict where
  docs : Option (List Doc)
  queries : Option (List Query)
  qrels : Option (List Qrel)

/-- `dict(pairs).get(k)` for a Python dict built from a comprehension:
on duplicate keys the later entry wins, and a missing key yields `None`. -/
def pyDictGet (pairs : List (String × String)) (k : String) : Option String :=
  (pairs.reverse.find? (fun p => p.1 == k)).map (fun p => p.2)

/-- One row of the flat table: `(qid, query, docid, passage, rel)`. -/
abbrev Row := String × String × String × String × Int

/-- Message of the malformed-input `ValueError` raised by `trec_df`. -/
def keysErrMsg : String := "Input must contain 'docs', 'queries', and 'qrels' keys."

/-- The row-building loop of `trec_df`: for each qrel look up the query text
and the passage text and emit a row only when both are truthy (present and
non-empty); `relevance` defaults to `0` when absent. -/
def trecRows (queryLookup docLookup : String → Option String) :
    List Qrel → List Row
  | [] => []
  | r :: rs =>
      let rel := r.relevance.getD 0
      let query := queryLookup r.query_id
      let passage := docLookup r.doc_id
      match query, passage with
      | some qt, some pt =>
          if qt != "" && pt != "" then
            (r.query_id, qt, r.doc_id, pt, rel) :: trecRows queryLookup docLookup rs
          else trecRows queryLookup docLookup rs
      | _, _ => trecRows queryLookup docLookup rs

/-- `TRECDLAdapter.trec_df`: check that all three keys are present (raising a
`ValueError` otherwise), build the `doc_id → text` and `query_id → text`
lookups with `getattr(·, "text", "")`, and run the row loop.  The resulting
row list is the data of the returned DataFrame (pandas itself is external). -/
def trec_df (data : DataDict) : Except PyExc (List Row) :=
  match data.docs, data.queries, data.qrels with
  | some docs, some queries, some qrels =>
      let doc_pairs := docs.map (fun d => (d.doc_id, d.text.getD ""))
      let query_pairs := queries.map (fun q => (q.query_id, q.text.getD ""))
      .ok (trecRows (pyDictGet query_pairs) (pyDictGet doc_pairs) qrels)
  | _, _, _ => .error (.valueError keysErrMsg)

/-!  ## Concrete fixtures

A small registry: three documents, three queries of which `q2` is unjudged,
and two qrels (one with an absent `relevance` attribute); `d2` is an
unjudged document. -/

def exDoc1 : Doc := ⟨"d1", some "x is a thing"⟩

def exDoc2 : Doc := ⟨"d2", some "unjudged doc"⟩

def exDoc3 : Doc := ⟨"d3", some "third text"⟩

def exQuery1 : Query := ⟨"q1", some "what is x"⟩

def exQuery2 : Query := ⟨"q2", some "no judgments"⟩

def exQuery3 : Query := ⟨"q3", some "third query"⟩

def exQrel1 : Qrel := ⟨"q1", "d1", some 2⟩

def exQrel3 : Qrel := ⟨"q3", "d3", none⟩

def exDocs : List Doc := [exDoc1, exDoc2, exDoc3]

def exQueries : List Query := [exQuery1, exQuery2, exQuery3]

def exQrels : List Qrel := [exQrel1, exQrel3]

/-- A dataset whose three streams all succeed. -/
def exDS : Dataset := ⟨.ok exDocs, .ok exQueries, .ok exQrels⟩

/-- A dataset whose qrel stream raises mid-iteration. -/
def exBadDS : Dataset :=
  ⟨.ok exDocs, .ok exQueries, .error (.runtimeError "stream failure")⟩

/-- A registry that reports every identifier unknown (raw `KeyError`). -/
def exRegistry : String → Except PyExc Dataset :=
  fun dsid => .error (.keyError dsid)

/-!  ## Helper lemmas  -/

/-- The step-4 result of `load` restated as a pure function of the three
streamed lists; `loadBody` on an all-ok dataset returns exactly this. -/
def loadPure (docs : List Doc) (queries : List Query) (qrels : List Qrel)
    (limit : Option Int) : LoadResult :=
  let qm := qrelMap qrels
  let filtered := queries.filter (fun q => mapContainsKey qm q.query_id)
  let all_queries := if truthy limit then pySliceTo filtered (limit.getD 0) else filtered
  let qids := all_queries.map (fun q => q.query_id)
  let qrelsF := qrels.filter (fun r => qids.contains r.query_id)
  let docids := qrelsF.map (fun r => r.doc_id)
  let docsF := docs.filter (fun d => docids.contains d.doc_id)
  ⟨docsF, all_queries, qrelsF⟩

theorem loadBody_eq_ok (ds : Dataset) (docs : List Doc) (queries : List Query)
    (qrels : List Qrel) (limit : Option Int) (hd : ds.docs_iter = .ok docs)
    (hq : ds.queries_iter = .ok queries) (hr : ds.qrels_iter = .ok qrels) :
    loadBody ds limit = .ok (loadPure docs queries qrels limit) := by
  simp [loadBody, loadPure, hd, hq, hr]

theorem load_eq_loadPure (ds : Dataset) (docs : List Doc) (queries : List Query)
    (qrels : List Qrel) (limit : Option Int) (hd : ds.docs_iter = .ok docs)
    (hq : ds.queries_iter = .ok queries) (hr : ds.qrels_iter = .ok qrels) :
    load ds limit = loadPure docs queries qrels limit := by
  simp [load, loadBody_eq_ok ds docs queries qrels limit hd hq hr]

theorem or_or_self (a b : Bool) : ((a || b) || a) = (a || b) := by
  cases a <;> cases b <;> rfl

theorem any_addQrel (m : List (String × List Qrel)) (r : Qrel) (qid : String) :
    ((addQrel m r).any fun p => p.1 == qid)
      = ((m.any fun p => p.1 == qid) || (r.query_id == qid)) := by
  induction m with
  | nil => simp [addQrel]
  | cons p rest ih =>
    obtain ⟨k, v⟩ := p
    by_cases hk : k = r.query_id
    · subst hk
      have h : (r.query_id == r.query_id) = true := by simp
      simp only [addQrel]
      rw [if_pos h, List.any_cons, List.any_cons, or_or_self]
    · have h : (k == r.query_id) = false := by simp [hk]
      simp only [addQrel]
      rw [if_neg (by simp [h]), List.any_cons, List.any_cons, ih, Bool.or_assoc]

theorem any_foldl_addQrel (qid : String) (rs : List Qrel)
    (m : List (String × List Qrel)) :
    ((rs.foldl addQrel m).any fun p => p.1 == qid)
      = ((m.any fun p => p.1 == qid) || rs.any fun r => r.query_id == qid) := by
  induction rs generalizing m with
  | nil => simp
  | cons r rs ih =>
    rw [List.foldl_cons, ih, any_addQrel, List.any_cons, Bool.or_assoc]

theorem mapContainsKey_qrelMap (qrels : List Qrel) (qid : String) :
    mapContainsKey (qrelMap qrels) qid = qrels.any (fun r => r.query_id == qid) := by
  simp only [mapContainsKey, qrelMap, any_foldl_addQrel, List.any_nil,
    Bool.false_or]

theorem contains_map_any {α : Type} (l : List α) (f : α → String) (x : String) :
    (l.map f).contains x = l.any (fun a => f a == x) := by
  rw [Bool.eq_iff_iff]
  simp only [List.contains_eq_any_beq, List.any_eq_true, List.mem_map, beq_iff_eq]
  constructor
  · rintro ⟨y, ⟨a, ha, rfl⟩, h⟩
    exact ⟨a, ha, h.symm⟩
  · rintro ⟨a, ha, h⟩
    exact ⟨f a, ⟨a, ha, rfl⟩, h.symm⟩

theorem loadPure_queries_none (docs : List Doc) (queries : List Query)
    (qrels : List Qrel) :
    (loadPure docs queries qrels none).queries
      = queries.filter (fun q => qrels.any fun r => r.query_id == q.query_id) := by
  simp only [loadPure, truthy, Bool.false_eq_true, if_false]
  exact List.filter_congr (fun q _ => mapContainsKey_qrelMap qrels q.query_id)

theorem loadPure_qrels_char (docs : List Doc) (queries : List Query)
    (qrels : List Qrel) (limit : Option Int) :
    (loadPure docs queries qrels limit).qrels
      = qrels.filter (fun r =>
          (loadPure docs queries qrels limit).queries.any
            fun q => q.query_id == r.query_id) := by
  simp only [loadPure]
  exact List.filter_congr (fun r _ => contains_map_any _ _ _)

theorem loadPure_docs_char (docs : List Doc) (queries : List Query)
    (qrels : List Qrel) (limit : Option Int) :
    (loadPure docs queries qrels limit).docs
      = docs.filter (fun d =>
          (loadPure docs queries qrels limit).qrels.any
            fun r => r.doc_id == d.doc_id) := by
  simp only [loadPure]
  exact List.filter_congr (fun d _ => contains_map_any _ _ _)

/-- Every retained query keeps at least one of its qrels: the query survived
the judged filter, and all of that query's qrels survive the step-3 filter. -/
theorem loadPure_no_orphan_query (docs : List Doc) (queries : List Query)
    (qrels : List Qrel) :
    ∀ q ∈ (loadPure docs queries qrels none).queries,
      ∃ r ∈ (loadPure docs queries qrels none).qrels, r.query_id = q.query_id := by
  intro q hqmem
  have hj : (qrels.any fun r => r.query_id == q.query_id) = true := by
    rw [loadPure_queries_none] at hqmem
    exact (List.mem_filter.1 hqmem).2
  rw [List.any_eq_true] at hj
  obtain ⟨r, hrmem, hbeq⟩ := hj
  have hre : r.query_id = q.query_id := by simpa using hbeq
  refine ⟨r, ?_, hre⟩
  rw [loadPure_qrels_char]
  refine List.mem_filter.2 ⟨hrmem, ?_⟩
  rw [List.any_eq_true]
  exact ⟨q, hqmem, by simp [hre]⟩

theorem loadPure_no_orphan_qrel (docs : List Doc) (queries : List Query)
    (qrels : List Qrel) (limit : Option Int) :
    ∀ r ∈ (loadPure docs queries qrels limit).qrels,
      ∃ q ∈ (loadPure docs queries qrels limit).queries, q.query_id = r.query_id := by
  intro r hrmem
  rw [loadPure_qrels_char] at hrmem
  have h := (List.mem_filter.1 hrmem).2
  rw [List.any_eq_true] at h
  obtain ⟨q, hqmem, hbeq⟩ := h
  exact ⟨q, hqmem, by simpa using hbeq⟩

theorem loadPure_no_orphan_doc (docs : List Doc) (queries : List Query)
    (qrels : List Qrel) (limit : Option Int) :
    ∀ d ∈ (loadPure docs queries qrels limit).docs,
      ∃ r ∈ (loadPure docs queries qrels limit).qrels, r.doc_id = d.doc_id := by
  intro d hdmem
  rw [loadPure_docs_char] at hdmem
  have h := (List.mem_filter.1 hdmem).2
  rw [List.any_eq_true] at h
  obtain ⟨r, hrmem, hbeq⟩ := h
  exact ⟨r, hrmem, by simpa using hbeq⟩

/-!  ## Claims  -/

/-- Claim C1: on a dataset whose three streams all succeed, `load(limit=None)`
satisfies the closure property: the returned queries are exactly the registry
queries with at least one qrel (in registry order), the returned qrels are
exactly those whose query id was retained, the returned docs are exactly
those referenced by a retained qrel, and no orphan query, qrel, or document
appears in any direction. -/
theorem claim_C1_load_none_closure (ds : Dataset) (docs : List Doc)
    (queries : List Query) (qrels : List Qrel)
    (hd : ds.docs_iter = .ok docs) (hq : ds.queries_iter = .ok queries)
    (hr : ds.qrels_iter = .ok qrels) :
    (load ds none).queries
        = queries.filter (fun q => qrels.any fun r => r.query_id == q.query_id) ∧
    (load ds none).qrels
        = qrels.filter (fun r =>
            (load ds none).queries.any fun q => q.query_id == r.query_id) ∧
    (load ds none).docs
        = docs.filter (fun d =>
            (load ds none).qrels.any fun r => r.doc_id == d.doc_id) ∧
    (∀ q ∈ (load ds none).queries,
        ∃ r ∈ (load ds none).qrels, r.query_id = q.query_id) ∧
    (∀ r ∈ (load ds none).qrels,
        ∃ q ∈ (load ds none).queries, q.query_id = r.query_id) ∧
    (∀ d ∈ (load ds none).docs,
        ∃ r ∈ (load ds none).qrels, r.doc_id = d.doc_id) := by
  rw [load_eq_loadPure ds docs queries qrels none hd hq hr]
  exact ⟨loadPure_queries_none docs queries qrels,
    loadPure_qrels_char docs queries qrels none,
    loadPure_docs_char docs queries qrels none,
    loadPure_no_orphan_query docs queries qrels,
    loadPure_no_orphan_qrel docs queries qrels none,
    loadPure_no_orphan_doc docs queries qrels none⟩

/-- Claim C3: dataset-identifier resolution is a pure function of
`(year, mode)`: years 2019 and 2020 resolve to `msmarco-<mode>/trec-dl-<year>`
and 2021 resolves to `msmarco-<mode>-v2/trec-dl-2021`, for both allowed
modes. -/
theorem claim_C3_dataset_id_schemes :
    dataset_id 2019 "passage" = "msmarco-passage/trec-dl-2019" ∧
    dataset_id 2020 "passage" = "msmarco-passage/trec-dl-2020" ∧
    dataset_id 2021 "passage" = "msmarco-passage-v2/trec-dl-2021" ∧
    dataset_id 2019 "document" = "msmarco-document/trec-dl-2019" ∧
    dataset_id 2020 "document" = "msmarco-document/trec-dl-2020" ∧
    dataset_id 2021 "document" = "msmarco-document-v2/trec-dl-2021" := by
  refine ⟨rfl, rfl, rfl, rfl, rfl, rfl⟩

/-- Claim C9: a limit of `0` is falsy in the `if limit:` guard, so
`load(limit=0)` skips the truncation and returns exactly the result of
`load(limit=None)`. -/
theorem claim_C9_limit_zero_is_no_limit (ds : Dataset) :
    load ds (some 0) = load ds none := by
  simp [load, loadBody, truthy]

/-- Witness for C1 on the concrete fixture (hypotheses hold by `rfl`). -/
theorem claim_C1_load_none_closure_witness :
    (load exDS none).queries
        = exQueries.filter (fun q => exQrels.any fun r => r.query_id == q.query_id) ∧
    (load exDS none).qrels
        = exQrels.filter (fun r =>
            (load exDS none).queries.any fun q => q.query_id == r.query_id) ∧
    (load exDS none).docs
        = exDocs.filter (fun d =>
            (load exDS none).qrels.any fun r => r.doc_id == d.doc_id) ∧
    (∀ q ∈ (load exDS none).queries,
        ∃ r ∈ (load exDS none).qrels, r.query_id = q.query_id) ∧
    (∀ r ∈ (load exDS none).qrels,
        ∃ q ∈ (load exDS none).queries, q.query_id = r.query_id) ∧
    (∀ d ∈ (load exDS none).docs,
        ∃ r ∈ (load exDS none).qrels, r.doc_id = d.doc_id) :=
  claim_C1_load_none_closure exDS exDocs exQueries exQrels rfl rfl rfl

/-- Claim C2: `load` never raises — when any of the underlying streams fails
(at any point of the body), the exception is caught and `load` returns the
empty result for every `limit`. -/
theorem claim_C2_load_never_raises (ds : Dataset) (limit : Option Int)
    (h : (∃ e, ds.qrels_iter = .error e) ∨ (∃ e, ds.queries_iter = .error e) ∨
         (∃ e, ds.docs_iter = .error e)) :
    load ds limit = ⟨[], [], []⟩ := by
  rcases h with ⟨e, he⟩ | ⟨e, he⟩ | ⟨e, he⟩
  · simp [load, loadBody, he]
  · cases hq : ds.qrels_iter <;> simp [load, loadBody, he, hq]
  · cases hq : ds.qrels_iter <;> cases hqu : ds.queries_iter <;>
      simp [load, loadBody, he, hq, hqu]

/-- Witness for C2: a failing qrel stream degrades to the empty result. -/
theorem claim_C2_load_never_raises_witness :
    load exBadDS (some 5) = ⟨[], [], []⟩ :=
  claim_C2_load_never_raises exBadDS (some 5)
    (Or.inl ⟨.runtimeError "stream failure", rfl⟩)

theorem judged_filter_congr (queries : List Query) (qrels : List Qrel) :
    (queries.filter fun q => mapContainsKey (qrelMap qrels) q.query_id)
      = queries.filter fun q => qrels.any fun r => r.query_id == q.query_id :=
  List.filter_congr (fun q _ => mapContainsKey_qrelMap qrels q.query_id)

theorem loadPure_queries_pos (docs : List Doc) (queries : List Query)
    (qrels : List Qrel) (k : Nat) (hk : 1 ≤ k) :
    (loadPure docs queries qrels (some (k : Int))).queries
      = (queries.filter fun q => qrels.any fun r => r.query_id == q.query_id).take k := by
  have ht : truthy (some (k : Int)) = true := by
    simp only [truthy, bne_iff_ne, ne_eq]
    omega
  simp only [loadPure, ht, if_true, Option.getD_some, judged_filter_congr]
  rw [pySliceTo, if_pos (by omega : (0 : Int) ≤ (k : Int))]
  congr 1

theorem loadPure_queries_neg (docs : List Doc) (queries : List Query)
    (qrels : List Qrel) (m : Nat) (hm : 1 ≤ m) :
    (loadPure docs queries qrels (some (-(m : Int)))).queries
      = (queries.filter fun q => qrels.any fun r => r.query_id == q.query_id).take
          ((queries.filter fun q => qrels.any fun r => r.query_id == q.query_id).length - m) := by
  have ht : truthy (some (-(m : Int))) = true := by
    simp only [truthy, bne_iff_ne, ne_eq]
    omega
  simp only [loadPure, ht, if_true, Option.getD_some, judged_filter_congr]
  rw [pySliceTo, if_neg (by omega : ¬(0 : Int) ≤ -(m : Int))]
  congr 1
  omega

/-- Claim C4: for a positive `k` not exceeding the judged-query count,
`load(limit=k)` returns exactly the first `k` judged queries — the
truncation is applied to the already-filtered query list — and the qrels
and docs are restricted to those queries. -/
theorem claim_C4_load_limit_truncates_after_filter (ds : Dataset)
    (docs : List Doc) (queries : List Query) (qrels : List Qrel)
    (hd : ds.docs_iter = .ok docs) (hq : ds.queries_iter = .ok queries)
    (hr : ds.qrels_iter = .ok qrels) (k : Nat) (hk : 1 ≤ k)
    (hcount : k ≤ (queries.filter fun q =>
        qrels.any fun r => r.query_id == q.query_id).length) :
    (load ds (some (k : Int))).queries
        = (queries.filter fun q => qrels.any fun r => r.query_id == q.query_id).take k ∧
    (load ds (some (k : Int))).queries.length = k ∧
    (load ds (some (k : Int))).qrels
        = qrels.filter (fun r =>
            (load ds (some (k : Int))).queries.any fun q => q.query_id == r.query_id) ∧
    (load ds (some (k : Int))).docs
        = docs.filter (fun d =>
            (load ds (some (k : Int))).qrels.any fun r => r.doc_id == d.doc_id) := by
  rw [load_eq_loadPure ds docs queries qrels (some (k : Int)) hd hq hr]
  refine ⟨loadPure_queries_pos docs queries qrels k hk, ?_,
    loadPure_qrels_char docs queries qrels (some (k : Int)),
    loadPure_docs_char docs queries qrels (some (k : Int))⟩
  rw [loadPure_queries_pos docs queries qrels k hk, List.length_take]
  exact Nat.min_eq_left hcount

/-- Witness for C4 on the fixture: two judged queries, `k = 1`. -/
theorem claim_C4_load_limit_truncates_after_filter_witness :
    (load exDS (some ((1 : Nat) : Int))).queries
        = (exQueries.filter fun q => exQrels.any fun r => r.query_id == q.query_id).take 1 ∧
    (load exDS (some ((1 : Nat) : Int))).queries.length = 1 ∧
    (load exDS (some ((1 : Nat) : Int))).qrels
        = exQrels.filter (fun r =>
            (load exDS (some ((1 : Nat) : Int))).queries.any fun q => q.query_id == r.query_id) ∧
    (load exDS (some ((1 : Nat) : Int))).docs
        = exDocs.filter (fun d =>
            (load exDS (some ((1 : Nat) : Int))).qrels.any fun r => r.doc_id == d.doc_id) :=
  claim_C4_load_limit_truncates_after_filter exDS exDocs exQueries exQrels
    rfl rfl rfl 1 (by decide) (by decide)

/-- Claim C10: a negative limit `-m` is truthy, so the slice
`all_queries[:limit]` keeps the judged queries with the last `m` entries
removed (the empty list once `m` reaches the judged-query count); `load`
does not fail, and qrels and docs are restricted to the remaining
queries. -/
theorem claim_C10_negative_limit_drops_tail (ds : Dataset) (docs : List Doc)
    (queries : List Query) (qrels : List Qrel)
    (hd : ds.docs_iter = .ok docs) (hq : ds.queries_iter = .ok queries)
    (hr : ds.qrels_iter = .ok qrels) (m : Nat) (hm : 1 ≤ m) :
    (load ds (some (-(m : Int)))).queries
        = (queries.filter fun q => qrels.any fun r => r.query_id == q.query_id).take
            ((queries.filter fun q => qrels.any fun r => r.query_id == q.query_id).length - m) ∧
    ((queries.filter fun q => qrels.any fun r => r.query_id == q.query_id).length ≤ m →
        (load ds (some (-(m : Int)))).queries = []) ∧
    (load ds (some (-(m : Int)))).qrels
        = qrels.filter (fun r =>
            (load ds (some (-(m : Int)))).queries.any fun q => q.query_id == r.query_id) ∧
    (load ds (some (-(m : Int)))).docs
        = docs.filter (fun d =>
            (load ds (some (-(m : Int)))).qrels.any fun r => r.doc_id == d.doc_id) := by
  rw [load_eq_loadPure ds docs queries qrels (some (-(m : Int))) hd hq hr]
  refine ⟨loadPure_queries_neg docs queries qrels m hm, ?_,
    loadPure_qrels_char docs queries qrels (some (-(m : Int))),
    loadPure_docs_char docs queries qrels (some (-(m : Int)))⟩
  intro hge
  rw [loadPure_queries_neg docs queries qrels m hm]
  have h0 : (queries.filter fun q =>
      qrels.any fun r => r.query_id == q.query_id).length - m = 0 := by omega
  rw [h0, List.take_zero]

/-- Witness for C10 on the fixture: `m = 1` keeps only the first of the two
judged queries. -/
theorem claim_C10_negative_limit_drops_tail_witness :
    (load exDS (some (-((1 : Nat) : Int)))).queries
        = (exQueries.filter fun q => exQrels.any fun r => r.query_id == q.query_id).take
            ((exQueries.filter fun q => exQrels.any fun r => r.query_id == q.query_id).length - 1) ∧
    ((exQueries.filter fun q => exQrels.any fun r => r.query_id == q.query_id).length ≤ 1 →
        (load exDS (some (-((1 : Nat) : Int)))).queries = []) ∧
    (load exDS (some (-((1 : Nat) : Int)))).qrels
        = exQrels.filter (fun r =>
            (load exDS (some (-((1 : Nat) : Int)))).queries.any fun q => q.query_id == r.query_id) ∧
    (load exDS (some (-((1 : Nat) : Int)))).docs
        = exDocs.filter (fun d =>
            (load exDS (some (-((1 : Nat) : Int)))).qrels.any fun r => r.doc_id == d.doc_id) :=
  claim_C10_negative_limit_drops_tail exDS exDocs exQueries exQrels
    rfl rfl rfl 1 (by decide)

theorem iterLoop_take {α : Type} (l : List α) (n : Int) (hn : 0 < n) :
    ∀ count : Int, 0 ≤ count → count < n →
      iterLoop (some n) count l = l.take (n - count).toNat := by
  induction l with
  | nil =>
    intro count hc hcn
    simp [iterLoop]
  | cons x xs ih =>
    intro count hc hcn
    have ht : truthy (some n) = true := by
      simp only [truthy, bne_iff_ne, ne_eq]
      omega
    simp only [iterLoop, ht, Option.getD_some, Bool.true_and]
    by_cases hcond : n ≤ count + 1
    · rw [if_pos (decide_eq_true hcond)]
      have h1 : (n - count).toNat = 1 := by omega
      rw [h1]
      rfl
    · rw [if_neg (by simpa using hcond)]
      rw [ih (count + 1) (by omega) (by omega)]
      have h1 : (n - count).toNat = (n - (count + 1)).toNat + 1 := by omega
      rw [h1, List.take_succ_cons]

/-- Claim C7: the three streaming iterators are raw pass-throughs with only a
count cap: with a positive limit `n` not exceeding the stream length each
yields exactly the first `n` records of its registry stream, with no
judged-query filtering (the conclusion does not depend on the qrels at
all, so an unjudged document within the first `n` is still yielded). -/
theorem claim_C7_iterators_raw_pass_through (ds : Dataset) (docs : List Doc)
    (queries : List Query) (qrels : List Qrel)
    (hd : ds.docs_iter = .ok docs) (hq : ds.queries_iter = .ok queries)
    (hr : ds.qrels_iter = .ok qrels) (n : Nat) (hn : 1 ≤ n)
    (hld : n ≤ docs.length) (hlq : n ≤ queries.length) (hlr : n ≤ qrels.length) :
    iter_docs ds (some (n : Int)) = .ok (docs.take n) ∧
    (docs.take n).length = n ∧
    iter_queries ds (some (n : Int)) = .ok (queries.take n) ∧
    (queries.take n).length = n ∧
    iter_qrels ds (some (n : Int)) = .ok (qrels.take n) ∧
    (qrels.take n).length = n := by
  have h1 : ∀ (α : Type) (l : List α), iterLoop (some (n : Int)) 0 l = l.take n := by
    intro α l
    rw [iterLoop_take l (n : Int) (by omega) 0 le_rfl (by omega)]
    congr 1
  refine ⟨?_, ?_, ?_, ?_, ?_, ?_⟩
  · rw [iter_docs, hd]
    simp [Except.map, h1]
  · rw [List.length_take]
    exact Nat.min_eq_left hld
  · rw [iter_queries, hq]
    simp [Except.map, h1]
  · rw [List.length_take]
    exact Nat.min_eq_left hlq
  · rw [iter_qrels, hr]
    simp [Except.map, h1]
  · rw [List.length_take]
    exact Nat.min_eq_left hlr

/-- Witness for C7 on the fixture with `n = 2`: the unjudged document `d2`
is still yielded by `iter_docs`. -/
theorem claim_C7_iterators_raw_pass_through_witness :
    iter_docs exDS (some ((2 : Nat) : Int)) = .ok (exDocs.take 2) ∧
    (exDocs.take 2).length = 2 ∧
    iter_queries exDS (some ((2 : Nat) : Int)) = .ok (exQueries.take 2) ∧
    (exQueries.take 2).length = 2 ∧
    iter_qrels exDS (some ((2 : Nat) : Int)) = .ok (exQrels.take 2) ∧
    (exQrels.take 2).length = 2 :=
  claim_C7_iterators_raw_pass_through exDS exDocs exQueries exQrels
    rfl rfl rfl 2 (by decide) (by decide) (by decide) (by decide)

theorem trecRows_eq_filterMap (ql dl : String → Option String) (rs : List Qrel) :
    trecRows ql dl rs = rs.filterMap (fun r =>
      match ql r.query_id, dl r.doc_id with
      | some qt, some pt =>
          if qt ≠ "" ∧ pt ≠ "" then
            some (r.query_id, qt, r.doc_id, pt, r.relevance.getD 0)
          else none
      | _, _ => none) := by
  induction rs with
  | nil => rfl
  | cons r rs ih =>
    simp only [trecRows, List.filterMap_cons]
    cases hq : ql r.query_id with
    | none => simp [ih]
    | some qt =>
      cases hp : dl r.doc_id with
      | none => simp [ih]
      | some pt =>
        by_cases h1 : qt = ""
        · simp [h1, ih]
        · by_cases h2 : pt = ""
          · simp [h1, h2, ih]
          · simp [h1, h2, ih]

/-- Claim C5: on input with all three keys, `trec_df` scans the qrels in
order and emits the row `(query_id, query_text, doc_id, passage_text,
relevance)` exactly when both text lookups yield a present, non-empty value;
judgments failing either lookup are dropped with no error (the result is
still `ok`), and the relevance defaults to `0` when the attribute is
absent. -/
theorem claim_C5_trec_df_row_emission (docs : List Doc) (queries : List Query)
    (qrels : List Qrel) :
    trec_df ⟨some docs, some queries, some qrels⟩
      = .ok (qrels.filterMap (fun r =>
          match pyDictGet (queries.map fun q => (q.query_id, q.text.getD "")) r.query_id,
                pyDictGet (docs.map fun d => (d.doc_id, d.text.getD "")) r.doc_id with
          | some qt, some pt =>
              if qt ≠ "" ∧ pt ≠ "" then
                some (r.query_id, qt, r.doc_id, pt, r.relevance.getD 0)
              else none
          | _, _ => none)) := by
  simp only [trec_df]
  rw [trecRows_eq_filterMap]

/-- Claim C8: `trec_df` raises the malformed-input `ValueError` exactly when
one of the three required keys is missing; with all three keys present the
precondition check passes and the call returns a row list. -/
theorem claim_C8_trec_df_key_precondition (data : DataDict) :
    ((data.docs = none ∨ data.queries = none ∨ data.qrels = none) →
        trec_df data = .error (.valueError keysErrMsg)) ∧
    (data.docs ≠ none → data.queries ≠ none → data.qrels ≠ none →
        ∃ rows, trec_df data = .ok rows) := by
  rcases data with ⟨od, oq, og⟩
  cases od <;> cases oq <;> cases og <;> simp [trec_df]

/-- Witness for C8: input missing the qrels key raises, and full input
passes the check. -/
theorem claim_C8_trec_df_key_precondition_witness :
    trec_df ⟨some exDocs, some exQueries, none⟩
        = .error (.valueError keysErrMsg) ∧
    ∃ rows, trec_df ⟨some exDocs, some exQueries, some exQrels⟩ = .ok rows :=
  ⟨(claim_C8_trec_df_key_precondition ⟨some exDocs, some exQueries, none⟩).1
      (Or.inr (Or.inr rfl)),
    (claim_C8_trec_df_key_precondition ⟨some exDocs, some exQueries, some exQrels⟩).2
      (by simp) (by simp) (by simp)⟩

theorem initAdapter_keyError_wrapped (registry : String → Except PyExc Dataset)
    (year : Int) (mode : String) (hy : year ∈ YEARS) (hm : mode ∈ MODES)
    (msg : String)
    (hreg : registry (dataset_id year mode) = .error (.keyError msg)) :
    initAdapter registry year mode
      = .error (.valueError ("Dataset not found in ir_datasets: "
          ++ dataset_id year mode)) := by
  simp only [initAdapter]
  rw [if_neg (not_not_intro hy), if_neg (not_not_intro hm), hreg]

/-- Claim C6: for any allowed `(year, mode)`, when the registry reports the
resolved identifier unknown (raw `KeyError`), construction fails with the
dataset-not-found `ValueError`: the raw `KeyError` is never propagated, the
error value differs from both invalid-configuration errors, and its message
carries the attempted identifier. -/
theorem claim_C6_not_found_distinct_and_wrapped
    (registry : String → Except PyExc Dataset) (year : Int) (mode : String)
    (hy : year ∈ YEARS) (hm : mode ∈ MODES) (msg : String)
    (hreg : registry (dataset_id year mode) = .error (.keyError msg)) :
    initAdapter registry year mode
        = .error (.valueError ("Dataset not found in ir_datasets: "
            ++ dataset_id year mode)) ∧
    (∀ m2, initAdapter registry year mode ≠ .error (.keyError m2)) ∧
    PyExc.valueError ("Dataset not found in ir_datasets: " ++ dataset_id year mode)
        ≠ PyExc.valueError yearErrMsg ∧
    PyExc.valueError ("Dataset not found in ir_datasets: " ++ dataset_id year mode)
        ≠ PyExc.valueError modeErrMsg ∧
    (∃ pre, ("Dataset not found in ir_datasets: " ++ dataset_id year mode)
        = pre ++ dataset_id year mode) := by
  refine ⟨initAdapter_keyError_wrapped registry year mode hy hm msg hreg,
    ?_, ?_, ?_, ⟨"Dataset not found in ir_datasets: ", rfl⟩⟩
  · intro m2 hcontra
    rw [initAdapter_keyError_wrapped registry year mode hy hm msg hreg] at hcontra
    simp at hcontra
  · simp only [YEARS, MODES, List.mem_cons, List.not_mem_nil, or_false] at hy hm
    rcases hy with rfl | rfl | rfl <;> rcases hm with rfl | rfl <;> decide
  · simp only [YEARS, MODES, List.mem_cons, List.not_mem_nil, or_false] at hy hm
    rcases hy with rfl | rfl | rfl <;> rcases hm with rfl | rfl <;> decide

/-- Witness for C6: the all-unknown registry with `(2019, "passage")`. -/
theorem claim_C6_not_found_distinct_and_wrapped_witness :
    initAdapter exRegistry 2019 "passage"
        = .error (.valueError ("Dataset not found in ir_datasets: "
            ++ dataset_id 2019 "passage")) ∧
    (∀ m2, initAdapter exRegistry 2019 "passage" ≠ .error (.keyError m2)) ∧
    PyExc.valueError ("Dataset not found in ir_datasets: " ++ dataset_id 2019 "passage")
        ≠ PyExc.valueError yearErrMsg ∧
    PyExc.valueError ("Dataset not found in ir_datasets: " ++ dataset_id 2019 "passage")
        ≠ PyExc.valueError modeErrMsg ∧
    (∃ pre, ("Dataset not found in ir_datasets: " ++ dataset_id 2019 "passage")
        = pre ++ dataset_id 2019 "passage") :=
  claim_C6_not_found_distinct_and_wrapped exRegistry 2019 "passage"
    (by decide) (by decide) (dataset_id 2019 "passage") rfl

end TrecDL
